import Mathlib

/-!
Verification of the POC_Multilingual code-mixed chat pipeline.

The development shallowly embeds the orchestration core of `src/chat.py`
(`CodeMixedLanguageDetector.detect_language`, `CodeMixedChatBot.cultural_context`,
`CodeMixedChatBot.create_system_prompt`, `CodeMixedChatBot.generate_response`)
and the enhancement pass of `src/tts.py` (`CodeMixedTTS.enhance_text_for_tts`).

The external inference capability is modelled as an explicit behaviour
parameter: either a failure (transport error, non-JSON output, or JSON that is
not an object — all of these raise inside the `try` block and are caught by the
same `except` handler) or a JSON object given as an association list of fields.
JSON numbers are modelled as exact rationals; the code never computes with
them, it only stores and compares them. Wall-clock `processing_time` is not
modelled (real time).
-/

namespace POCMultilingual

/-- A JSON value as produced by `json.loads`, restricted to what can appear in
an object field. Containers (lists/objects) are abstracted by their Python
truthiness, which is all the code ever observes of them before they make an
enum constructor raise. -/
inductive JsonVal where
  | null
  | bool (b : Bool)
  | num (q : ℚ)
  | str (s : String)
  | container (nonempty : Bool)
deriving DecidableEq

/-- Python truthiness of a JSON value (used by `result.get("secondary_language")`
in a boolean position and by `if detected_lang.is_code_mixed:`). -/
def JsonVal.truthy : JsonVal → Bool
  | .null => false
  | .bool b => b
  | .num q => decide (q ≠ 0)
  | .str s => decide (s ≠ "")
  | .container ne => ne

namespace Chat

/-- The `SouthIndianLanguage` enum of `src/chat.py`. -/
inductive SouthIndianLanguage where
  | TAMIL
  | TELUGU
  | KANNADA
  | MALAYALAM
  | ENGLISH
  | MIXED
deriving DecidableEq

/-- The `.value` of each enum member. -/
def SouthIndianLanguage.value : SouthIndianLanguage → String
  | .TAMIL => "tamil"
  | .TELUGU => "telugu"
  | .KANNADA => "kannada"
  | .MALAYALAM => "malayalam"
  | .ENGLISH => "english"
  | .MIXED => "mixed"

/-- Python `.value.title()` of each enum member. -/
def SouthIndianLanguage.valueTitle : SouthIndianLanguage → String
  | .TAMIL => "Tamil"
  | .TELUGU => "Telugu"
  | .KANNADA => "Kannada"
  | .MALAYALAM => "Malayalam"
  | .ENGLISH => "English"
  | .MIXED => "Mixed"

/-- Enum construction `SouthIndianLanguage(x)` from an arbitrary JSON value:
`none` models the `ValueError` raised on anything that is not one of the six
member strings. -/
def parseLang : JsonVal → Option SouthIndianLanguage
  | .str "tamil" => some .TAMIL
  | .str "telugu" => some .TELUGU
  | .str "kannada" => some .KANNADA
  | .str "malayalam" => some .MALAYALAM
  | .str "english" => some .ENGLISH
  | .str "mixed" => some .MIXED
  | _ => none

/-- The `LanguageDetectionResult` dataclass. `primary_language` and
`secondary_language` go through the enum constructor and are therefore genuinely
typed; `confidence`, `is_code_mixed` and `mix_ratio` are stored without any
runtime check, so they hold whatever JSON value the external response carried. -/
structure LanguageDetectionResult where
  primary_language : SouthIndianLanguage
  secondary_language : Option SouthIndianLanguage
  confidence : JsonVal
  is_code_mixed : JsonVal
  mix_ratio : JsonVal
deriving DecidableEq

/-- One behaviour of the external inference capability for a detection call:
`failure` covers a transport error, non-JSON output and JSON that is not an
object (each raises inside the `try` and lands in the same `except`); `obj`
is a successfully parsed JSON object (dict keys are unique, lookup is
first-match on the association list). -/
inductive ExtBehaviour where
  | failure
  | obj (fields : List (String × JsonVal))
deriving DecidableEq

/-- Dictionary field access; `none` models a missing key. -/
def getField : List (String × JsonVal) → String → Option JsonVal
  | [], _ => none
  | (k, v) :: rest, key => if k = key then some v else getField rest key

/-- Handling of `SouthIndianLanguage(result["secondary_language"]) if
result.get("secondary_language") else None`: an absent key or a falsy value
yields `None`; a truthy value must construct, else the `ValueError` propagates
(outer `none`). -/
def parseSecondary : Option JsonVal → Option (Option SouthIndianLanguage)
  | none => some none
  | some v => if v.truthy then (parseLang v).map some else some none

/-- The body of the `LanguageDetectionResult(...)` construction from the parsed
JSON object, in Python argument order; `none` models any raised
`KeyError`/`ValueError`, which the `except` handler catches. -/
def parseDetection (fields : List (String × JsonVal)) : Option LanguageDetectionResult :=
  match getField fields "primary_language" with
  | none => none
  | some pv =>
    match parseLang pv with
    | none => none
    | some p =>
      match parseSecondary (getField fields "secondary_language") with
      | none => none
      | some s =>
        match getField fields "confidence" with
        | none => none
        | some c =>
          match getField fields "is_code_mixed" with
          | none => none
          | some m =>
            match getField fields "mix_ratio" with
            | none => none
            | some ratio => some ⟨p, s, c, m, ratio⟩

/-- The fallback detection record built in the `except` branch. -/
def defaultDetection : LanguageDetectionResult :=
  ⟨.ENGLISH, none, .num (1/2), .bool false, .num 0⟩

/-- `CodeMixedLanguageDetector.detect_language`: the text only parametrizes the
request sent to the external capability, whose behaviour is the explicit
`ExtBehaviour` argument; every exception path returns the fallback record. -/
def detect_language (_text : String) : ExtBehaviour → LanguageDetectionResult
  | .failure => defaultDetection
  | .obj fields => (parseDetection fields).getD defaultDetection

/-- An external behaviour on which the `try` block raises, so that the
`except` handler produces the fallback record. -/
def failing : ExtBehaviour → Prop
  | .failure => True
  | .obj fields => parseDetection fields = none

/-- One entry of the `cultural_context` dictionary of `CodeMixedChatBot`. -/
structure CulturalContextEntry where
  greeting : String
  culture : String
  food : String
deriving DecidableEq

/-- The static `cultural_context` table: only the four regional languages have
entries; `.get(primary, {})` on any other tag yields the empty dict (`none`). -/
def cultural_context : SouthIndianLanguage → Option CulturalContextEntry
  | .TAMIL => some ⟨"Vanakkam", "Tamil Nadu culture, Chennai references, Tamil cinema",
      "dosa, idli, sambar, rasam, Tamil cuisine"⟩
  | .TELUGU => some ⟨"Namaskaram", "Andhra/Telangana culture, Hyderabad references, Tollywood",
      "biryani, pesarattu, gongura, Telugu cuisine"⟩
  | .KANNADA => some ⟨"Namaskara", "Karnataka culture, Bangalore references, Sandalwood",
      "masala dosa, mysore pak, Kannada cuisine"⟩
  | .MALAYALAM => some ⟨"Namaskaram", "Kerala culture, backwaters, Malayalam cinema",
      "appam, fish curry, coconut, Kerala cuisine"⟩
  | .ENGLISH => none
  | .MIXED => none

/-- Lookup `context.get('greeting', 'Hello')` over `context = cultural_context.get(primary, ...)`, the empty dict default. -/
def greetingOf (p : SouthIndianLanguage) : String :=
  match cultural_context p with
  | some c => c.greeting
  | none => "Hello"

/-- Lookup `context.get('culture', 'General South Indian')`. -/
def cultureOf (p : SouthIndianLanguage) : String :=
  match cultural_context p with
  | some c => c.culture
  | none => "General South Indian"

/-- Lookup `context.get('food', 'South Indian cuisine')`. -/
def foodOf (p : SouthIndianLanguage) : String :=
  match cultural_context p with
  | some c => c.food
  | none => "South Indian cuisine"

/-- The f-string built when `detected_lang.is_code_mixed` is truthy. -/
def codeMixedPrompt (primary : SouthIndianLanguage) : String :=
  "\n            You are a friendly, culturally aware assistant who naturally speaks in code-mixed "
  ++ primary.value
  ++ "-English, \n            just like urban South Indians do in daily conversation.\n            \n            Cultural Context:\n            - Primary language: "
  ++ primary.valueTitle
  ++ "\n            - Greeting style: "
  ++ greetingOf primary
  ++ "\n            - Cultural knowledge: "
  ++ cultureOf primary
  ++ "\n            - Food references: "
  ++ foodOf primary
  ++ "\n            \n            Response Style:\n            - Mix "
  ++ primary.value
  ++ " and English naturally (like the user did)\n            - Use appropriate "
  ++ primary.value
  ++ " greetings and expressions\n            - Include cultural references when relevant\n            - Keep responses conversational and warm\n            - Match the user\x27s code-mixing style and ratio\n            - Use romanized "
  ++ primary.value
  ++ " (English letters) for "
  ++ primary.value
  ++ " words\n            \n            Examples of natural "
  ++ primary.value
  ++ "-English mixing:\n            - \"Vanakkam! How are you? Naan nalla irukken da!\"\n            - \"Office work romba busy-aa irukku, but weekend plans ready!\"\n            - \"Shall we go for lunch? Biriyani sapdalam!\"\n            \n            Remember: Be natural, friendly, and culturally appropriate!\n            "

/-- The plain string built when not code-mixed and the primary language is English. -/
def englishPrompt : String :=
  "\n                You are a friendly assistant. The user is speaking in English.\n                Respond naturally in English, but feel free to use some South Indian \n                expressions if contextually appropriate.\n                "

/-- The f-string built when not code-mixed and the primary language is not English. -/
def regionalPrompt (primary : SouthIndianLanguage) : String :=
  "\n                You are a friendly assistant. The user is speaking in "
  ++ primary.value
  ++ ".\n                Respond in a mix of "
  ++ primary.value
  ++ " and English, as this is natural \n                for South Indian conversations. Use romanized "
  ++ primary.value
  ++ ".\n                "

/-- Embedding of `CodeMixedChatBot.create_system_prompt`: branch on the truthiness of
`detected_lang.is_code_mixed`, then on `primary == SouthIndianLanguage.ENGLISH`. -/
def create_system_prompt (detected_lang : LanguageDetectionResult) : String :=
  if detected_lang.is_code_mixed.truthy then
    codeMixedPrompt detected_lang.primary_language
  else if detected_lang.primary_language = SouthIndianLanguage.ENGLISH then
    englishPrompt
  else
    regionalPrompt detected_lang.primary_language

/-- The three mutually exclusive branches of `create_system_prompt`. -/
inductive PromptBranch where
  | codeMixed
  | plainEnglish
  | regionalBlend
deriving DecidableEq

/-- Which branch `create_system_prompt` takes on a record. -/
def branchOf (r : LanguageDetectionResult) : PromptBranch :=
  if r.is_code_mixed.truthy then .codeMixed
  else if r.primary_language = SouthIndianLanguage.ENGLISH then .plainEnglish
  else .regionalBlend

/-- Branch selection as a function of the pair
(truthiness of `is_code_mixed`, `primary_language == ENGLISH`). -/
def branchFromPair (mixed : Bool) (isEnglish : Bool) : PromptBranch :=
  if mixed then .codeMixed else if isEnglish then .plainEnglish else .regionalBlend

/-- The directive text produced by each branch. -/
def promptFor : PromptBranch → LanguageDetectionResult → String
  | .codeMixed, r => codeMixedPrompt r.primary_language
  | .plainEnglish, _ => englishPrompt
  | .regionalBlend, r => regionalPrompt r.primary_language

/-- One `{"role": ..., "content": ...}` message of the conversation. -/
structure Turn where
  role : String
  content : String
deriving DecidableEq

/-- The mutable state of `CodeMixedChatBot`: its `conversation_history`. -/
structure BotState where
  conversation_history : List Turn
deriving DecidableEq

/-- The `ChatResponse` dataclass (wall-clock `processing_time` is not modelled). -/
structure ChatResponse where
  response_text : String
  detected_language : LanguageDetectionResult
  response_language : SouthIndianLanguage
deriving DecidableEq

/-- Result of one `generate_response` call: the new bot state, the returned
`ChatResponse`, and the message sequence composed for the generation capability. -/
structure StepResult where
  state : BotState
  response : ChatResponse
  sent : List Turn
deriving DecidableEq

/-- The fixed apologetic fallback reply of the generation failure branch. -/
def fallbackReply : String := "Sorry, I\x27m having trouble right now. Please try again!"

/-- Embedding of `CodeMixedChatBot.generate_response`: detect, build the system prompt,
append the user turn, window the last 10 turns, compose the messages; on
generation success append the assistant turn and echo the detected primary
language, on generation failure leave the history with only the user turn
appended and return the fixed fallback in English. The generation capability
behaviour is `some replyText` (success) or `none` (any raised exception). -/
def generate_response (st : BotState) (user_input : String)
    (detectExt : ExtBehaviour) (genExt : Option String) : StepResult :=
  let detected_lang := detect_language user_input detectExt
  let system_prompt := create_system_prompt detected_lang
  let hist := st.conversation_history ++ [⟨"user", user_input⟩]
  let recent_history := hist.drop (hist.length - 10)
  let messages := ⟨"system", system_prompt⟩ :: recent_history
  match genExt with
  | some response_text =>
      { state := ⟨hist ++ [⟨"assistant", response_text⟩]⟩,
        response := ⟨response_text, detected_lang, detected_lang.primary_language⟩,
        sent := messages }
  | none =>
      { state := ⟨hist⟩,
        response := ⟨fallbackReply, detected_lang, SouthIndianLanguage.ENGLISH⟩,
        sent := messages }

/-- The full history as it stands at the windowing point of a `generate_response`
call: the previous history with the new user turn appended. -/
def full_history (st : BotState) (user_input : String) : List Turn :=
  st.conversation_history ++ [⟨"user", user_input⟩]

/-- Run a sequence of `reply` calls whose generation step succeeds, starting
from the empty session (`self.conversation_history = []`); each element gives
the user input, the detection behaviour and the successful generation text. -/
def runReplies (inputs : List (String × ExtBehaviour × String)) : BotState :=
  inputs.foldl (fun st x => (generate_response st x.1 x.2.1 (some x.2.2)).state) ⟨[]⟩

/-- Membership of a JSON value in the numeric interval [0.0, 1.0] required of
`confidence` and `mix_ratio` by the specified data model. -/
def inUnitRange : JsonVal → Prop
  | .num q => 0 ≤ q ∧ q ≤ 1
  | _ => False

/-- A well-formed JSON response whose fields are mutually inconsistent: not
code-mixed, yet naming a secondary language and a nonzero mix ratio. -/
def inconsistentResponse : ExtBehaviour :=
  .obj [("primary_language", .str "tamil"), ("secondary_language", .str "english"),
        ("confidence", .num (9/10)), ("is_code_mixed", .bool false),
        ("mix_ratio", .num (3/10))]

/-- A well-formed JSON response whose numeric fields lie outside [0.0, 1.0]. -/
def outOfRangeResponse : ExtBehaviour :=
  .obj [("primary_language", .str "english"), ("secondary_language", .null),
        ("confidence", .num (3/2)), ("is_code_mixed", .bool true),
        ("mix_ratio", .num (3/2))]

end Chat

namespace TTS

/-- The `SouthIndianLanguage` enum of `src/tts.py` (it has no ENGLISH member). -/
inductive SouthIndianLanguage where
  | TAMIL
  | TELUGU
  | KANNADA
  | MALAYALAM
  | MIXED
deriving DecidableEq

/-- The `CodeMixedPhrase` dataclass of `src/tts.py`. -/
structure CodeMixedPhrase where
  text : String
  primary_language : SouthIndianLanguage
  secondary_language : Option SouthIndianLanguage
  mix_ratio : ℚ
  description : String
deriving DecidableEq

/-- Embedding of `CodeMixedTTS.enhance_text_for_tts`: on success the returned text is
stripped, quote characters and the boilerplate label removed, and stripped
again; on any failure the original phrase text is returned unchanged. The
capability behaviour is `some content` (success) or `none` (any exception). -/
def enhance_text_for_tts (phrase : CodeMixedPhrase) (ext : Option String) : String :=
  match ext with
  | some content =>
      (((content.trim.replace "\"" "").replace "Enhanced text for TTS:" "").trim)
  | none => phrase.text

end TTS

namespace Chat

/-- Claim C1 counterexample: on the text shown and a well-formed external JSON
object whose fields are mutually inconsistent (`is_code_mixed` false together
with a named secondary language and a nonzero mix ratio), `detect_language`
returns a record with `is_code_mixed` false whose secondary language is present
and whose mix ratio is nonzero — the normalization invariant does not hold for
every behaviour of the external capability. -/
theorem detect_language_invariant_cex :
    (detect_language "Naan busy, meeting irukku" inconsistentResponse).is_code_mixed
        = JsonVal.bool false ∧
    (detect_language "Naan busy, meeting irukku" inconsistentResponse).secondary_language
        = some SouthIndianLanguage.ENGLISH ∧
    (detect_language "Naan busy, meeting irukku" inconsistentResponse).mix_ratio
        ≠ JsonVal.num 0 := by
  have h : detect_language "Naan busy, meeting irukku" inconsistentResponse
      = ⟨.TAMIL, some .ENGLISH, .num (9/10), .bool false, .num (3/10)⟩ := rfl
  refine ⟨by rw [h], by rw [h], ?_⟩
  rw [h]
  intro hc
  have h2 : ((3:ℚ)/10) = 0 := by injection hc
  norm_num at h2

/-- Claim C1, amended: for every text input and every behaviour of the external
capability, the record returned by `estimate` either is the default record —
which does satisfy the normalization invariant (`is_code_mixed` false,
secondary language absent, mix ratio 0.0) — or reproduces verbatim the fields
of an accepted well-formed external response; fields of a well-formed response
are passed through without cross-field normalization, so the invariant is
guaranteed only when the response is rejected or is itself consistent. -/
theorem detect_language_invariant_amended :
    (defaultDetection.is_code_mixed = JsonVal.bool false ∧
     defaultDetection.secondary_language = none ∧
     defaultDetection.mix_ratio = JsonVal.num 0) ∧
    ∀ text d, detect_language text d = defaultDetection ∨
      ∃ fields, d = ExtBehaviour.obj fields ∧
        parseDetection fields = some (detect_language text d) := by
  refine ⟨⟨rfl, rfl, rfl⟩, ?_⟩
  intro text d
  cases d with
  | failure => exact Or.inl rfl
  | obj fields =>
    cases h : parseDetection fields with
    | none => exact Or.inl (by simp [detect_language, h])
    | some r => exact Or.inr ⟨fields, rfl, by simp [detect_language, h]⟩

/-- Claim C2: `estimate` never raises (the embedding is a total function); on
transport failure, non-JSON output, or any field failing the validation the
code performs (required key present, enum membership of the language fields)
it returns exactly the default record
`{primary: ENGLISH, secondary: absent, confidence: 0.5, isCodeMixed: false, mixRatio: 0.0}`,
and any two calls against failing behaviours yield field-for-field identical
records. -/
theorem detect_language_fallback_default :
    (∀ text, detect_language text ExtBehaviour.failure = defaultDetection) ∧
    defaultDetection = ⟨SouthIndianLanguage.ENGLISH, none, JsonVal.num (1/2),
        JsonVal.bool false, JsonVal.num 0⟩ ∧
    (∀ text fields, parseDetection fields = none →
        detect_language text (ExtBehaviour.obj fields) = defaultDetection) ∧
    (∀ t₁ t₂ d₁ d₂, failing d₁ → failing d₂ →
        detect_language t₁ d₁ = detect_language t₂ d₂) := by
  refine ⟨fun _ => rfl, rfl, ?_, ?_⟩
  · intro text fields h
    simp [detect_language, h]
  · intro t₁ t₂ d₁ d₂ h₁ h₂
    cases d₁ <;> cases d₂ <;>
      simp only [failing] at h₁ h₂ <;> simp [detect_language, h₁, h₂]

/-- Witness for C2 at concrete inputs: the empty JSON object is rejected and
both failure modes yield the same default record. -/
theorem detect_language_fallback_default_witness :
    parseDetection [] = none ∧
    detect_language "hello" (ExtBehaviour.obj []) = defaultDetection ∧
    detect_language "hello" ExtBehaviour.failure = detect_language "hi" (ExtBehaviour.obj []) :=
  ⟨rfl, detect_language_fallback_default.2.2.1 "hello" [] rfl,
   detect_language_fallback_default.2.2.2 "hello" "hi" ExtBehaviour.failure
     (ExtBehaviour.obj []) trivial rfl⟩

/-- Claim C3 counterexample: a well-formed external response carrying
`confidence = 1.5` is accepted, its out-of-range value is passed through into
the returned record, and the default record is not substituted — out-of-range
numeric fields do not count as validation failures in the code. -/
theorem detect_language_range_cex :
    (detect_language "hello there" outOfRangeResponse).confidence = JsonVal.num (3/2) ∧
    ¬ inUnitRange ((detect_language "hello there" outOfRangeResponse).confidence) ∧
    detect_language "hello there" outOfRangeResponse ≠ defaultDetection := by
  have h : detect_language "hello there" outOfRangeResponse
      = ⟨.ENGLISH, none, .num (3/2), .bool true, .num (3/2)⟩ := rfl
  refine ⟨by rw [h], ?_, ?_⟩
  · rw [h]
    simp only [inUnitRange]
    rintro ⟨-, h2⟩
    norm_num at h2
  · rw [h]
    intro hc
    simp [defaultDetection, LanguageDetectionResult.mk.injEq] at hc

/-- Claim C3, amended: the default record substituted on failure has
`confidence` 0.5 and `mixRatio` 0.0, both in [0.0, 1.0]; but the code performs
no range validation on a well-formed response: whenever a response is accepted,
its `confidence` and `mix_ratio` values — in or out of range — appear verbatim
in the returned record. -/
theorem detect_language_range_amended :
    (inUnitRange defaultDetection.confidence ∧ inUnitRange defaultDetection.mix_ratio) ∧
    ∀ fields r, parseDetection fields = some r →
      getField fields "confidence" = some r.confidence ∧
      getField fields "mix_ratio" = some r.mix_ratio := by
  constructor
  · constructor <;> (simp only [defaultDetection, inUnitRange]; norm_num)
  · intro fields r h
    unfold parseDetection at h
    repeat' split at h
    all_goals cases h
    all_goals simp_all

/-- Witness for C3 (amended) at a concrete accepted response: its numeric
fields are passed through verbatim. -/
theorem detect_language_range_amended_witness :
    parseDetection [("primary_language", JsonVal.str "telugu"),
        ("confidence", JsonVal.num (7/10)), ("is_code_mixed", JsonVal.bool true),
        ("mix_ratio", JsonVal.num (1/2))]
      = some ⟨SouthIndianLanguage.TELUGU, none, JsonVal.num (7/10),
          JsonVal.bool true, JsonVal.num (1/2)⟩ ∧
    getField [("primary_language", JsonVal.str "telugu"),
        ("confidence", JsonVal.num (7/10)), ("is_code_mixed", JsonVal.bool true),
        ("mix_ratio", JsonVal.num (1/2))] "confidence" = some (JsonVal.num (7/10)) ∧
    getField [("primary_language", JsonVal.str "telugu"),
        ("confidence", JsonVal.num (7/10)), ("is_code_mixed", JsonVal.bool true),
        ("mix_ratio", JsonVal.num (1/2))] "mix_ratio" = some (JsonVal.num (1/2)) :=
  ⟨rfl,
   (detect_language_range_amended.2
     [("primary_language", JsonVal.str "telugu"), ("confidence", JsonVal.num (7/10)),
      ("is_code_mixed", JsonVal.bool true), ("mix_ratio", JsonVal.num (1/2))]
     ⟨SouthIndianLanguage.TELUGU, none, JsonVal.num (7/10), JsonVal.bool true,
      JsonVal.num (1/2)⟩ rfl).1,
   (detect_language_range_amended.2
     [("primary_language", JsonVal.str "telugu"), ("confidence", JsonVal.num (7/10)),
      ("is_code_mixed", JsonVal.bool true), ("mix_ratio", JsonVal.num (1/2))]
     ⟨SouthIndianLanguage.TELUGU, none, JsonVal.num (7/10), JsonVal.bool true,
      JsonVal.num (1/2)⟩ rfl).2⟩

/-- Claim C4: `create_system_prompt` factors through exactly one of three
branches; the branch taken is a pure deterministic function of the pair
(truthiness of `is_code_mixed`, `primary_language == ENGLISH`); and a record
with `is_code_mixed` false and a non-English primary language takes the
regional-blend branch, whose directive requests a regional-language/English
mix, not a pure-language reply. -/
theorem create_system_prompt_branch (r : LanguageDetectionResult) :
    create_system_prompt r = promptFor (branchOf r) r ∧
    branchOf r = branchFromPair r.is_code_mixed.truthy
      (decide (r.primary_language = SouthIndianLanguage.ENGLISH)) ∧
    (r.is_code_mixed = JsonVal.bool false → r.primary_language ≠ SouthIndianLanguage.ENGLISH →
      branchOf r = PromptBranch.regionalBlend ∧
      create_system_prompt r = regionalPrompt r.primary_language) := by
  refine ⟨?_, ?_, ?_⟩
  · by_cases h1 : r.is_code_mixed.truthy <;>
      by_cases h2 : r.primary_language = SouthIndianLanguage.ENGLISH <;>
      simp [create_system_prompt, branchOf, promptFor, h1, h2]
  · by_cases h1 : r.is_code_mixed.truthy <;>
      by_cases h2 : r.primary_language = SouthIndianLanguage.ENGLISH <;>
      simp [branchOf, branchFromPair, h1, h2]
  · intro hm hne
    have h1 : r.is_code_mixed.truthy = false := by rw [hm]; rfl
    constructor <;> simp [branchOf, create_system_prompt, h1, hne]

/-- Witness for C4 at a concrete record: not code-mixed, primary Tamil, gets
the regional-blend directive. -/
theorem create_system_prompt_branch_witness :
    branchOf ⟨SouthIndianLanguage.TAMIL, none, JsonVal.num (4/5), JsonVal.bool false,
        JsonVal.num 0⟩ = PromptBranch.regionalBlend ∧
    create_system_prompt ⟨SouthIndianLanguage.TAMIL, none, JsonVal.num (4/5),
        JsonVal.bool false, JsonVal.num 0⟩ = regionalPrompt SouthIndianLanguage.TAMIL :=
  (create_system_prompt_branch ⟨SouthIndianLanguage.TAMIL, none, JsonVal.num (4/5),
      JsonVal.bool false, JsonVal.num 0⟩).2.2 rfl (by decide)

/-- Helper: the length of the history after a fold of successful replies. -/
theorem runReplies_length_aux (inputs : List (String × ExtBehaviour × String)) (st : BotState) :
    (inputs.foldl (fun s x => (generate_response s x.1 x.2.1 (some x.2.2)).state)
        st).conversation_history.length
      = st.conversation_history.length + 2 * inputs.length := by
  induction inputs generalizing st with
  | nil => simp
  | cons a rest ih =>
    rw [List.foldl_cons, ih]
    simp [generate_response]
    omega

/-- Claim C5: a successful `reply` appends exactly the user turn then the
assistant turn, in call order; a failed one appends exactly the user turn;
hence from the empty session N successful replies leave a full history of
length 2N; and in every case the earlier turns are left unmodified (the old
history is a prefix of the new one). -/
theorem reply_history_growth :
    (∀ st i d t, (generate_response st i d (some t)).state.conversation_history
        = st.conversation_history ++ [⟨"user", i⟩, ⟨"assistant", t⟩]) ∧
    (∀ st i d, (generate_response st i d none).state.conversation_history
        = st.conversation_history ++ [⟨"user", i⟩]) ∧
    (∀ inputs, (runReplies inputs).conversation_history.length = 2 * inputs.length) ∧
    (∀ st i d g, (generate_response st i d g).state.conversation_history.take
        st.conversation_history.length = st.conversation_history) := by
  refine ⟨?_, ?_, ?_, ?_⟩
  · intro st i d t
    simp [generate_response]
  · intro st i d
    rfl
  · intro inputs
    simpa using runReplies_length_aux inputs ⟨[]⟩
  · intro st i d g
    cases g <;> simp [generate_response, List.take_left]

/-- Claim C6: the message sequence passed to the generation capability is the
directive as the leading system message followed by the suffix of the full
history (user turn already appended) obtained by dropping all but the last 10
turns: that suffix has length `min 10 (length of the full history)` — so
exactly the most recent 10 turns when the history exceeds 10 and all of them
otherwise — and gluing the dropped prefix back in front of it restores the
full history, so the turns are in their original order. -/
theorem reply_window_bounding (st : BotState) (i : String) (d : ExtBehaviour) (g : Option String) :
    (generate_response st i d g).sent
      = ⟨"system", create_system_prompt (detect_language i d)⟩ ::
        (full_history st i).drop ((full_history st i).length - 10) ∧
    ((full_history st i).drop ((full_history st i).length - 10)).length
      = min 10 (full_history st i).length ∧
    (full_history st i).take ((full_history st i).length - 10) ++
        (full_history st i).drop ((full_history st i).length - 10) = full_history st i := by
  refine ⟨by cases g <;> rfl, ?_, List.take_append_drop _ _⟩
  rw [List.length_drop]
  omega

/-- Claim C7: when the generation capability fails, the returned ChatResponse
has exactly the fixed apologetic fallback text, response language forced to
ENGLISH regardless of the detected primary language, and the detection record
computed by the estimator in the same call. -/
theorem reply_generation_failure_fallback (st : BotState) (i : String) (d : ExtBehaviour) :
    (generate_response st i d none).response.response_text = fallbackReply ∧
    fallbackReply = "Sorry, I\x27m having trouble right now. Please try again!" ∧
    (generate_response st i d none).response.response_language = SouthIndianLanguage.ENGLISH ∧
    (generate_response st i d none).response.detected_language = detect_language i d :=
  ⟨rfl, rfl, rfl, rfl⟩

/-- Helper: the code-mixed directive is never the empty string. -/
theorem codeMixedPrompt_ne_empty (p : SouthIndianLanguage) : codeMixedPrompt p ≠ "" := by
  cases p <;> decide

/-- Helper: the regional-blend directive is never the empty string. -/
theorem regionalPrompt_ne_empty (p : SouthIndianLanguage) : regionalPrompt p ≠ "" := by
  cases p <;> decide

/-- Claim C8: cultural-context lookup is total — every tag yields nonempty
greeting/culture/food material, the tags absent from the static table
(ENGLISH, MIXED) resolve to the per-key defaults rather than failing — and
consequently `create_system_prompt` produces a nonempty directive string for
every DetectionRecord, with no failure branch. -/
theorem cultural_context_total :
    (∀ tag, greetingOf tag ≠ "" ∧ cultureOf tag ≠ "" ∧ foodOf tag ≠ "") ∧
    cultural_context SouthIndianLanguage.ENGLISH = none ∧
    cultural_context SouthIndianLanguage.MIXED = none ∧
    (greetingOf SouthIndianLanguage.ENGLISH = "Hello" ∧
     cultureOf SouthIndianLanguage.ENGLISH = "General South Indian" ∧
     foodOf SouthIndianLanguage.ENGLISH = "South Indian cuisine") ∧
    (greetingOf SouthIndianLanguage.MIXED = "Hello" ∧
     cultureOf SouthIndianLanguage.MIXED = "General South Indian" ∧
     foodOf SouthIndianLanguage.MIXED = "South Indian cuisine") ∧
    (∀ r, create_system_prompt r ≠ "") := by
  refine ⟨?_, rfl, rfl, ⟨rfl, rfl, rfl⟩, ⟨rfl, rfl, rfl⟩, ?_⟩
  · intro tag
    refine ⟨?_, ?_, ?_⟩ <;> cases tag <;> decide
  · intro r
    unfold create_system_prompt
    split
    · exact codeMixedPrompt_ne_empty _
    · split
      · decide
      · exact regionalPrompt_ne_empty _

/-- Claim C10: `detect_language` falls back to the default record whenever any
of the keys `primary_language`, `confidence`, `is_code_mixed`, `mix_ratio` is
missing from the well-formed response; but a missing or null
`secondary_language` alone does not trigger the fallback — it maps to an
absent secondary language while all other returned fields pass through. -/
theorem detect_language_required_keys :
    (∀ text fields,
       (getField fields "primary_language" = none ∨ getField fields "confidence" = none ∨
        getField fields "is_code_mixed" = none ∨ getField fields "mix_ratio" = none) →
       detect_language text (ExtBehaviour.obj fields) = defaultDetection) ∧
    (∀ text fields pv p c m ratio,
       getField fields "primary_language" = some pv → parseLang pv = some p →
       (getField fields "secondary_language" = none ∨
        getField fields "secondary_language" = some JsonVal.null) →
       getField fields "confidence" = some c →
       getField fields "is_code_mixed" = some m →
       getField fields "mix_ratio" = some ratio →
       detect_language text (ExtBehaviour.obj fields) = ⟨p, none, c, m, ratio⟩) := by
  constructor
  · intro text fields h
    have hp : parseDetection fields = none := by
      unfold parseDetection
      rcases h with h|h|h|h <;> rw [h]
      all_goals repeat' split
      all_goals (first | rfl | simp_all)
    simp [detect_language, hp]
  · intro text fields pv p c m ratio h1 h2 h3 h4 h5 h6
    have hp : parseDetection fields = some ⟨p, none, c, m, ratio⟩ := by
      rcases h3 with h3|h3 <;>
        simp only [parseDetection, h1, h2, h3, h4, h5, h6, parseSecondary,
          JsonVal.truthy] <;> rfl
    simp [detect_language, hp]

/-- Witness for C10 at concrete inputs: the empty object falls back; an object
with the four required keys and no secondary language passes through with an
absent secondary. -/
theorem detect_language_required_keys_witness :
    detect_language "hi" (ExtBehaviour.obj []) = defaultDetection ∧
    detect_language "hi" (ExtBehaviour.obj
        [("primary_language", JsonVal.str "tamil"), ("confidence", JsonVal.num (9/10)),
         ("is_code_mixed", JsonVal.bool true), ("mix_ratio", JsonVal.num (2/5))])
      = ⟨SouthIndianLanguage.TAMIL, none, JsonVal.num (9/10), JsonVal.bool true,
          JsonVal.num (2/5)⟩ :=
  ⟨detect_language_required_keys.1 "hi" [] (Or.inl rfl),
   detect_language_required_keys.2 "hi"
     [("primary_language", JsonVal.str "tamil"), ("confidence", JsonVal.num (9/10)),
      ("is_code_mixed", JsonVal.bool true), ("mix_ratio", JsonVal.num (2/5))]
     (JsonVal.str "tamil") SouthIndianLanguage.TAMIL (JsonVal.num (9/10))
     (JsonVal.bool true) (JsonVal.num (2/5)) rfl rfl (Or.inl rfl) rfl rfl rfl⟩

end Chat

namespace TTS

/-- Claim C9: when the inference capability fails, `enhance_text_for_tts`
returns the original phrase text unchanged, byte for byte; the embedding is a
total function, so it never raises to the caller. -/
theorem enhance_failure_returns_original (phrase : CodeMixedPhrase) :
    enhance_text_for_tts phrase none = phrase.text := rfl

end TTS

end POCMultilingual
